import Mathlib

/-!
Shallow embedding of the AI-Based Desktop Assistant core logic:
the intent classifier, bounded command history and intent-frequency
counters of `main.py` (`AIAssistantApp`), the listening/speaking
turn-taking coordinator of `modules/speech_recognition_module.py`
(`SpeechRecognitionModule`) together with the TTS pause/resume wiring of
`main.py`, the weather and general-query collaborator callback handlers
(`handle_weather_response`, `handle_ai_response`, `AIModule.process_query`),
and the configuration lookup of `utils/config.py` (`AppConfig.get`).

Strings are modelled as Lean `String`; Python substring, startswith and
strip operations are implemented on the underlying character lists.
-/

namespace Assistant

/-- Python `str.lower()` (character-wise lowercasing; all keywords are ASCII). -/
def lowerStr (s : String) : String :=
  String.mk (s.data.map Char.toLower)

/-- `seqStart pat l` : does `l` start with `pat` (Python `startswith` on char lists). -/
def seqStart : List Char → List Char → Bool
  | [], _ => true
  | _ :: _, [] => false
  | a :: as, b :: bs => a == b && seqStart as bs

/-- `seqIn pat l` : does `pat` occur as a contiguous run inside `l`
(Python `pat in l` substring test). -/
def seqIn (pat : List Char) : List Char → Bool
  | [] => pat.isEmpty
  | c :: rest => seqStart pat (c :: rest) || seqIn pat rest

/-- Python `pat in hay` substring test on strings. -/
def strContains (hay pat : String) : Bool := seqIn pat.data hay.data

/-- Python `hay.startswith(pat)`. -/
def strStarts (hay pat : String) : Bool := seqStart pat.data hay.data

/-- Python slice `s[n:]` (drop the first `n` characters). -/
def dropChars (n : Nat) (s : String) : String := String.mk (s.data.drop n)

/-- Python `str.strip()` : remove whitespace from both ends. -/
def stripStr (s : String) : String :=
  String.mk (((s.data.dropWhile Char.isWhitespace).reverse.dropWhile
    Char.isWhitespace).reverse)

/-- The closed set of intent tags returned by `AIAssistantApp.get_command_intent`
(main.py lines 157-176). -/
inductive IntentTag where
  | weather
  | news
  | reminder
  | time
  | help
  | general
deriving DecidableEq

/-- Keyword set for the weather intent (main.py line 161). -/
def weather_words : List String := [ "weather", "temperature", "forecast" ]

/-- Keyword set for the news intent (main.py line 164). -/
def news_words : List String := [ "news", "headlines", "latest" ]

/-- Keyword set for the reminder intent (main.py line 167). -/
def reminder_words : List String := [ "remind", "reminder", "schedule" ]

/-- Keyword set for the time intent (main.py line 170). -/
def time_words : List String := [ "time", "date", "day" ]

/-- Keyword set for the help intent (main.py line 173). -/
def help_words : List String := [ "help", "command", "what can you do" ]

/-- Python `any(word in text_lower for word in ws)`. -/
def kw_hit (text_lower : String) (ws : List String) : Bool :=
  ws.any (fun w => strContains text_lower w)

/-- `AIAssistantApp.get_command_intent` (main.py lines 157-176): lowercase the
text, then test the keyword sets in the fixed order
weather, news, reminder, time, help; no match yields `general`. -/
def get_command_intent (text : String) : IntentTag :=
  let tl := lowerStr text
  if kw_hit tl weather_words then .weather
  else if kw_hit tl news_words then .news
  else if kw_hit tl reminder_words then .reminder
  else if kw_hit tl time_words then .time
  else if kw_hit tl help_words then .help
  else .general

/-- One entry of `AIAssistantApp.command_history` (main.py lines 249-253). -/
structure CommandRecord where
  command : String
  timestamp : String
  intent : IntentTag
deriving DecidableEq

/-- Placeholder record used to express Python's `command_history[-2]` lookup. -/
def default_record : CommandRecord := { command := "", timestamp := "", intent := .general }

/-- `max_history_size` (main.py line 68). -/
def max_history_size : Nat := 20

/-- `AIAssistantApp.add_to_command_history` (main.py lines 246-257), acting on
the history list: append a record carrying the classified intent and the
current timestamp, then pop the front entry if the length exceeds
`max_history_size`. -/
def add_to_command_history (now command : String) (h : List CommandRecord) :
    List CommandRecord :=
  let h2 := h ++ [ { command := command, timestamp := now,
                     intent := get_command_intent command } ]
  if max_history_size < h2.length then h2.tail else h2

/-- Lookup of the running intent-frequency table `recent_intents`
(a Python dict, modelled as an association list; a missing key counts as 0). -/
def countOf : List (IntentTag × Nat) → IntentTag → Nat
  | [], _ => 0
  | (k, n) :: rest, t => if k = t then n else countOf rest t

/-- Python `intent in self.recent_intents` membership test. -/
def hasKey : List (IntentTag × Nat) → IntentTag → Bool
  | [], _ => false
  | (k, _) :: rest, t => k = t || hasKey rest t

/-- Increment one table entry when its key matches (the
`self.recent_intents[intent] += 1` branch, applied entrywise). -/
def bump_intent (intent : IntentTag) (p : IntentTag × Nat) : IntentTag × Nat :=
  if p.1 = intent then (p.1, p.2 + 1) else p

/-- `AIAssistantApp.update_intent_frequency` (main.py lines 259-264): bump the
counter of `intent` if present, otherwise insert it with count 1. -/
def update_intent_frequency (intent : IntentTag) (m : List (IntentTag × Nat)) :
    List (IntentTag × Nat) :=
  if hasKey m intent then m.map (bump_intent intent)
  else m ++ [ (intent, 1) ]

/-- Association lookup on a string-keyed table (Python `dict.get(k)`). -/
def assoc_get {α : Type} (d : List (String × α)) (k : String) : Option α :=
  (d.find? (fun p => p.1 == k)).map (fun p => p.2)

/-- `AppConfig.get` (utils/config.py lines 90-102):
`config_data.get(section, {}).get(key, default)`.  Stored values are modelled
as `Option String` so that a stored Python `None` (`none`) is distinguished
from an absent key; numeric and boolean config values are rendered as strings
(no modelled code path reads them). -/
def config_get (cfg : List (String × List (String × Option String)))
    (sect key : String) (dflt : Option String) : Option String :=
  match assoc_get cfg sect with
  | none => dflt
  | some entries =>
    match assoc_get entries key with
    | none => dflt
    | some v => v

/-- `AppConfig.create_default_config` (utils/config.py lines 49-73): the four
sections of the default configuration.  Note there is no top-level
`default_location` section; `weather.default_location` is `None`. -/
def default_config_data : List (String × List (String × Option String)) :=
  [ ( "general", [ ( "voice_enabled", some "true" ),
                   ( "startup_greeting", some "true" ),
                   ( "theme", some "default" ) ] ),
    ( "voice", [ ( "rate", some "150" ),
                 ( "volume", some "1.0" ),
                 ( "preferred_voice", none ) ] ),
    ( "weather", [ ( "default_location", none ),
                   ( "units", some "metric" ) ] ),
    ( "news", [ ( "default_country", some "us" ),
                ( "default_category", some "general" ),
                ( "article_count", some "5" ) ] ) ]

/-- Ambient inputs of one `process_command` call that the Python code reads
from the outside world: the current timestamp string
(`QDateTime.currentDateTime`), the two formatted clock strings used by the
direct time/date commands, and the configuration store. -/
structure Env where
  now : String
  timeStr : String
  dateStr : String
  config : List (String × List (String × Option String))
deriving DecidableEq

/-- Mutable state of `AIAssistantApp` touched by the router:
`command_history` and `recent_intents` (main.py lines 67-69). -/
structure RouterState where
  history : List CommandRecord := []
  recentIntents : List (IntentTag × Nat) := []
deriving DecidableEq

/-- The fresh state set up in `AIAssistantApp.__init__`. -/
def empty_router : RouterState := {}

/-- Effects of a handled system command (`process_system_command` /
`execute_direct_command` in main.py): responses passed to
`handle_assistant_response`, an optional scheduled `app.quit` delay
(`QTimer.singleShot`), and an optional start/stop-listening call
(`some true` = `start_listening`, `some false` = `stop_listening`). -/
structure SysEff where
  responses : List String
  quitDelayMs : Option Nat := none
  listenAction : Option Bool := none
deriving DecidableEq

/-- The asynchronous collaborator call issued by `process_command`:
`weather_module.get_weather`, `news_module.get_news` or
`ai_module.process_query`. -/
inductive Dispatch where
  | weather (location : Option String)
  | news (category : String)
  | ai (query : String)
deriving DecidableEq

/-- Observable outcome of one `AIAssistantApp.process_command` call:
the updated state, the responses emitted synchronously, the scheduled quit
delay, the collaborator dispatch, every argument `get_command_intent` was
invoked on, the intent used for routing (main.py line 138) if that step ran,
any direct listen action, and whether `process_system_command` returned True. -/
structure PCResult where
  state : RouterState
  responses : List String
  quitDelayMs : Option Nat
  dispatch : Option Dispatch
  classifierCalls : List String
  routedIntent : Option IntentTag
  listenAction : Option Bool
  systemHandled : Bool
deriving DecidableEq

/-- The wake prefixes of `process_system_command` (main.py line 183,
`command_prefixes` in the source), in their fixed order. -/
def wake_words : List String :=
  [ "computer", "assistant", "hey assistant", "execute", "run" ]

/-- The help text of `AIAssistantApp.show_help` (main.py lines 266-277). -/
def help_text : String :=
  "Here are the things I can help you with:\n" ++
  "- Weather information (e.g., 'What's the weather today?')\n" ++
  "- News headlines (e.g., 'Show me the latest news')\n" ++
  "- Reminders (e.g., 'Remind me to call mom')\n" ++
  "- General questions (e.g., 'Who is the president?')\n" ++
  "- System commands (e.g., 'exit', 'history')\n\n" ++
  "You can also ask me about your command history."

/-- `AIAssistantApp.show_command_history` (main.py lines 279-293): the last
(at most 5) records, most recent first, enumerated from 1. -/
def show_command_history (h : List CommandRecord) : String :=
  if h.length = 0 then "You haven't given me any commands yet."
  else
    let n := min 5 h.length
    let items := h.drop (h.length - n)
    "Here are your recent commands:\n" ++
      String.join ((items.reverse.enum).map (fun p =>
        toString (p.1 + 1) ++ ". " ++ p.2.command ++ " (" ++ p.2.timestamp ++ ")\n"))

/-- `AIAssistantApp.execute_direct_command` (main.py lines 212-244):
exact-match table over the prefix-stripped command text; `none` models the
Python `return False` fall-through. -/
def execute_direct_command (env : Env) (ct : String) (st : RouterState) :
    Option SysEff :=
  if ct ∈ [ "time", "current time", "what time is it" ] then
    some { responses := [ "The current time is " ++ env.timeStr ] }
  else if ct ∈ [ "date", "today", "what day is it", "current date" ] then
    some { responses := [ "Today is " ++ env.dateStr ] }
  else if ct ∈ [ "repeat", "repeat last", "say that again" ] then
    some { responses := [
      if 1 < st.history.length then
        "Your last command was: " ++
          (st.history.getD (st.history.length - 2) default_record).command
      else "You haven't made any previous commands." ] }
  else if ct ∈ [ "start listening", "listen" ] then
    some { responses := [ "I'm listening now." ], listenAction := some true }
  else if ct ∈ [ "stop listening", "stop" ] then
    some { responses := [ "I've stopped listening." ], listenAction := some false }
  else none

/-- `AIAssistantApp.process_system_command` (main.py lines 178-210): if the
lowercased text starts with a wake prefix, strip the first matching prefix
(in list order) and run the direct-command table, returning its result even
when it is `none`; otherwise check the exit, help and history keyword sets in
that order.  `none` models `return False`. -/
def process_system_command (env : Env) (text : String) (st : RouterState) :
    Option SysEff :=
  let tl := lowerStr text
  match wake_words.find? (fun p => strStarts tl p) with
  | some p => execute_direct_command env (stripStr (dropChars p.length tl)) st
  | none =>
    if [ "exit", "quit", "close", "shutdown" ].any (fun c => strContains tl c) then
      some { responses := [ "Shutting down. Goodbye!" ], quitDelayMs := some 2000 }
    else if [ "help", "what can you do", "commands" ].any (fun c => strContains tl c) then
      some { responses := [ help_text ] }
    else if [ "history", "previous commands", "what did i say" ].any
        (fun c => strContains tl c) then
      some { responses := [ show_command_history st.history ] }
    else none

/-- `AIAssistantApp.process_command` (main.py lines 120-155).  Empty text is
answered immediately with the fixed apology and leaves the state untouched.
Otherwise the command is appended to the history (which classifies it for the
record), the system-command fast path is tried, and only if that misses is
the routing intent computed (main.py line 138), the frequency table bumped,
and the matching collaborator dispatched.  `classifierCalls` lists the
arguments of every `get_command_intent` invocation in order
(main.py line 252 inside `add_to_command_history`, then line 138). -/
def process_command (env : Env) (text : String) (st : RouterState) : PCResult :=
  if text = "" then
    { state := st,
      responses := [ "I didn't catch that. Could you please speak again?" ],
      quitDelayMs := none, dispatch := none, classifierCalls := [],
      routedIntent := none, listenAction := none, systemHandled := false }
  else
    let st1 : RouterState :=
      { st with history := add_to_command_history env.now text st.history }
    match process_system_command env text st1 with
    | some eff =>
      { state := st1, responses := eff.responses, quitDelayMs := eff.quitDelayMs,
        dispatch := none, classifierCalls := [ text ], routedIntent := none,
        listenAction := eff.listenAction, systemHandled := true }
    | none =>
      let intent := get_command_intent text
      let st2 : RouterState :=
        { st1 with recentIntents := update_intent_frequency intent st1.recentIntents }
      match intent with
      | .weather =>
        { state := st2, responses := [], quitDelayMs := none,
          dispatch := some (.weather
            (config_get env.config "default_location" "Lucknow" none)),
          classifierCalls := [ text, text ], routedIntent := some intent,
          listenAction := none, systemHandled := false }
      | .news =>
        let tl := lowerStr text
        let category :=
          if strContains tl "technology" || strContains tl "tech" then "technology"
          else if strContains tl "sports" then "sports"
          else if strContains tl "business" then "business"
          else "general"
        { state := st2, responses := [], quitDelayMs := none,
          dispatch := some (.news category),
          classifierCalls := [ text, text ], routedIntent := some intent,
          listenAction := none, systemHandled := false }
      | .reminder =>
        { state := st2, responses := [ "I've set a reminder for you" ],
          quitDelayMs := none, dispatch := none,
          classifierCalls := [ text, text ], routedIntent := some intent,
          listenAction := none, systemHandled := false }
      | _ =>
        { state := st2, responses := [], quitDelayMs := none,
          dispatch := some (.ai text),
          classifierCalls := [ text, text ], routedIntent := some intent,
          listenAction := none, systemHandled := false }

/-- The result dictionary delivered to the weather callback
(`WeatherModule.get_weather`, modules/weather_module.py lines 174-242).
`temperature` is modelled as its rendered string. -/
structure WeatherInfo where
  success : Bool
  location : Option String
  temperature : String
  description : String
  forecast : Option String := none
deriving DecidableEq

/-- Python f-string rendering of a possibly-`None` value. -/
def py_str : Option String → String
  | some s => s
  | none => "None"

/-- `AIAssistantApp.handle_weather_response` (main.py lines 320-329), returning
the response text passed to `handle_assistant_response`. -/
def handle_weather_response (w : WeatherInfo) : String :=
  if w.success then
    let base := "The weather in " ++ py_str w.location ++ " is " ++
      w.description ++ " with a temperature of " ++ w.temperature ++ "°C."
    match w.forecast with
    | some f => base ++ " Tomorrow's forecast: " ++ f
    | none => base
  else
    "Sorry, I couldn't get the weather information. Please try again later."

/-- The fallback responses of `AIModule._get_fallback_response`
(modules/ai_module.py lines 153-158). -/
def fallback_responses : List String :=
  [ "I'm sorry, I can't access my AI services right now.",
    "I'm having trouble connecting to my knowledge base at the moment.",
    "I apologize, but I'm unable to process that request right now.",
    "My advanced AI capabilities are currently unavailable. Can I help with something basic instead?" ]

/-- Ambient inputs of one `AIModule.process_query` call: whether the openai
package imported, the API key (Python treats `None` and the empty string as
absent), the outcome of the OpenAI chat call (`Except.error` = raised
exception, `Except.ok none` = empty `choices`, `Except.ok (some c)` = content
of the first choice), the index drawn by `random.choice`, and an exception
raised inside the `try` body of `process_query` itself (its only possible
source is the invoked callback, since `generate_response` catches all its own
errors). -/
structure AIEnv where
  openaiAvailable : Bool
  apiKey : Option String
  apiResp : Except String (Option String)
  randIdx : Nat
  excInTry : Option String

/-- Python truthiness of an optional string (`None` and `""` are falsy). -/
def opt_truthy : Option String → Bool
  | none => false
  | some s => !s.isEmpty

/-- `AIModule._get_fallback_response` (modules/ai_module.py lines 143-161):
`random.choice` over the four fallback responses, with the drawn index
supplied by the environment. -/
def get_fallback_response (env : AIEnv) : String :=
  fallback_responses.getD (env.randIdx % 4) ""

/-- `AIModule.generate_response` (modules/ai_module.py lines 40-74): fall back
when the package or key is missing, otherwise call the API, catching any
exception into a fallback and handling an empty choice list. -/
def generate_response (env : AIEnv) (_prompt : String) : String :=
  if !env.openaiAvailable || !(opt_truthy env.apiKey) then
    get_fallback_response env
  else
    match env.apiResp with
    | .error _ => get_fallback_response env
    | .ok none => "I'm not sure how to respond to that."
    | .ok (some content) => content

/-- The dictionary built by `AIModule.process_query`
(modules/ai_module.py lines 183-187 and 199-204). -/
structure ResponseInfo where
  success : Bool
  query : String
  response : String
  error : Option String := none
deriving DecidableEq

/-- `AIModule.process_query` (modules/ai_module.py lines 163-210): inside the
`try`, choose `generate_response` when a truthy API key exists and the plain
fallback otherwise, and deliver `success := true`; any exception raised inside
the `try` produces the `success := false` error dictionary instead. -/
def process_query (env : AIEnv) (query : String) : ResponseInfo :=
  match env.excInTry with
  | some e =>
    { success := false, query := query,
      response := "I encountered an error processing your request.",
      error := some e }
  | none =>
    { success := true, query := query,
      response :=
        if opt_truthy env.apiKey then generate_response env query
        else get_fallback_response env }

/-- `AIAssistantApp.handle_ai_response` (main.py lines 344-351), returning the
response text passed to `handle_assistant_response`. -/
def handle_ai_response (r : ResponseInfo) : String :=
  if r.success then r.response
  else "Sorry, I couldn't process your request. Please try again."

/-- State of the listening/speaking coordinator: the speech-capture thread of
`SpeechRecognitionModule` (`speech_thread.isRunning()`, its `stop_event`, and
`timeout_count`), the `is_listening_enabled` flag of `AIAssistantApp`, and
whether TTS output is in progress (`TextToSpeechModule.speaking`).  All
transitions run on the Qt event loop, so they are modelled as sequential
state-to-state functions. -/
structure CoordState where
  threadRunning : Bool
  stopRequested : Bool
  timeoutCount : Nat
  isListeningEnabled : Bool
  speaking : Bool
deriving DecidableEq

/-- `max_timeouts` (speech_recognition_module.py line 102). -/
def max_timeouts : Nat := 3

/-- The state after `AIAssistantApp.__init__`. -/
def initial_state : CoordState :=
  { threadRunning := false, stopRequested := false, timeoutCount := 0,
    isListeningEnabled := false, speaking := false }

/-- `SpeechRecognitionModule.start_listening`
(speech_recognition_module.py lines 116-143): a no-op when a capture thread is
already running; otherwise it resets `timeout_count` to 0 and starts a fresh
thread (with a fresh, unset `stop_event`), scheduling a
`check_and_restart_listening` timer. -/
def start_listening (st : CoordState) : CoordState :=
  if st.threadRunning then st
  else { st with timeoutCount := 0, threadRunning := true, stopRequested := false }

/-- `SpeechRecognitionModule.stop_listening`
(speech_recognition_module.py lines 177-191): sets the running thread's
`stop_event`; the thread itself ends later (see `thread_ends`). -/
def stop_listening (st : CoordState) : CoordState :=
  if st.threadRunning then { st with stopRequested := true } else st

/-- The capture thread finishes (timeout, recognition, error or requested
stop) and its `listening_ended` signal is processed. -/
def thread_ends (st : CoordState) : CoordState :=
  { st with threadRunning := false }

/-- `SpeechRecognitionModule.check_and_restart_listening`
(speech_recognition_module.py lines 153-166), fired by the 7-second timer:
a no-op while the thread still runs; otherwise, below `max_timeouts` it
increments `timeout_count` and calls `start_listening` (which immediately
resets the counter to 0 again), and at `max_timeouts` it only resets the
counter. -/
def check_and_restart_listening (st : CoordState) : CoordState :=
  if st.threadRunning then st
  else if st.timeoutCount < max_timeouts then
    start_listening { st with timeoutCount := st.timeoutCount + 1 }
  else { st with timeoutCount := 0 }

/-- `AIAssistantApp.enable_listening` (main.py lines 361-364). -/
def enable_listening (st : CoordState) : CoordState :=
  start_listening { st with isListeningEnabled := true }

/-- `AIAssistantApp.disable_listening` (main.py lines 366-369). -/
def disable_listening (st : CoordState) : CoordState :=
  stop_listening { st with isListeningEnabled := false }

/-- The `speech_started` signal: TTS playback begins and, via the connection
made in `connect_signals` (main.py line 107), `stop_listening` runs. -/
def speech_started_ev (st : CoordState) : CoordState :=
  stop_listening { st with speaking := true }

/-- The `speech_finished` signal: TTS playback ends and
`AIAssistantApp.resume_listening_after_tts` (main.py lines 371-374) restarts
listening exactly when `is_listening_enabled` holds. -/
def speech_finished_ev (st : CoordState) : CoordState :=
  let s := { st with speaking := false }
  if st.isListeningEnabled then start_listening s else s

/-- One full timeout cycle of the auto-restart loop: the capture session ends
without recognized text, then the scheduled 7-second check fires. -/
def timeout_step (st : CoordState) : CoordState :=
  check_and_restart_listening (thread_ends st)

/-- A concrete ambient environment (fixed clock readings, default config). -/
def sample_env : Env :=
  { now := "2024-01-01 10:00:00", timeStr := "10:00 AM",
    dateStr := "Monday, January 1, 2024", config := default_config_data }

/-- A concrete `AIModule` environment: package unavailable, no API key,
no exception. -/
def sample_ai_env : AIEnv :=
  { openaiAvailable := false, apiKey := none, apiResp := .ok none,
    randIdx := 2, excInTry := none }

section Lemmas

/-- A key absent from the frequency table counts as zero. -/
theorem countOf_of_hasKey_false (m : List (IntentTag × Nat)) (t : IntentTag)
    (h : hasKey m t = false) : countOf m t = 0 := by
  induction m with
  | nil => rfl
  | cons p rest ih =>
    obtain ⟨k, n⟩ := p
    simp [hasKey] at h
    simp [countOf, h.1]
    exact ih h.2

/-- Bumping a pair whose key matches. -/
theorem bump_intent_eq (t : IntentTag) (n : Nat) :
    bump_intent t (t, n) = (t, n + 1) := by
  simp [bump_intent]

/-- Bumping a pair whose key differs is the identity. -/
theorem bump_intent_ne (t k : IntentTag) (n : Nat) (h : ¬ k = t) :
    bump_intent t (k, n) = (k, n) := by
  simp [bump_intent, h]

/-- Appending a fresh key with count 1 raises exactly that key's count. -/
theorem countOf_append_one (m : List (IntentTag × Nat)) (t t' : IntentTag)
    (h : hasKey m t = false) :
    countOf (m ++ [ (t, 1) ]) t' = countOf m t' + (if t' = t then 1 else 0) := by
  induction m with
  | nil =>
    by_cases ht : t' = t
    · subst ht; simp [countOf]
    · have ht' : ¬ (t = t') := fun he => ht he.symm
      simp [countOf, ht, ht']
  | cons p rest ih =>
    obtain ⟨k, n⟩ := p
    simp [hasKey] at h
    by_cases hk : k = t'
    · have hne : ¬ (t' = t) := fun he => h.1 (hk.trans he)
      simp [countOf, hk, hne]
    · simp [countOf, hk]
      exact ih h.2

/-- Bumping an existing key raises its count by one. -/
theorem countOf_bump_self (m : List (IntentTag × Nat)) (t : IntentTag)
    (h : hasKey m t = true) :
    countOf (m.map (bump_intent t)) t = countOf m t + 1 := by
  induction m with
  | nil => simp [hasKey] at h
  | cons p rest ih =>
    obtain ⟨k, n⟩ := p
    by_cases hk : k = t
    · subst hk
      rw [List.map_cons, bump_intent_eq]
      simp [countOf]
    · simp [hasKey, hk] at h
      rw [List.map_cons, bump_intent_ne t k n hk]
      simp [countOf, hk]
      exact ih h

/-- Bumping one key leaves every other key's count unchanged. -/
theorem countOf_bump_other (m : List (IntentTag × Nat)) (t t' : IntentTag)
    (hne : t' ≠ t) :
    countOf (m.map (bump_intent t)) t' = countOf m t' := by
  induction m with
  | nil => rfl
  | cons p rest ih =>
    obtain ⟨k, n⟩ := p
    by_cases hk : k = t
    · subst hk
      rw [List.map_cons, bump_intent_eq]
      have hk' : ¬ (k = t') := fun he => hne he.symm
      simp [countOf, hk', ih]
    · rw [List.map_cons, bump_intent_ne t k n hk]
      by_cases hk2 : k = t'
      · simp [countOf, hk2]
      · simp [countOf, hk2, ih]

/-- `update_intent_frequency` raises exactly the updated tag's count by one. -/
theorem countOf_update (m : List (IntentTag × Nat)) (t t' : IntentTag) :
    countOf (update_intent_frequency t m) t' =
      countOf m t' + (if t' = t then 1 else 0) := by
  unfold update_intent_frequency
  cases h : hasKey m t with
  | true =>
    by_cases ht : t' = t
    · subst ht; simp [countOf_bump_self m t' h]
    · simp [countOf_bump_other m t t' ht, ht]
  | false =>
    simp only [Bool.false_eq_true, if_false]
    exact countOf_append_one m t t' h

/-- One history append keeps the length within `max_history_size`. -/
theorem add_history_length (now c : String) (h : List CommandRecord)
    (hl : h.length ≤ max_history_size) :
    (add_to_command_history now c h).length ≤ max_history_size := by
  simp only [add_to_command_history]
  split
  · simp only [List.length_tail, List.length_append, List.length_cons,
      List.length_nil]
    omega
  · next hle =>
    simp only [not_lt] at hle
    exact hle

/-- Folding any sequence of history appends keeps the length within
`max_history_size`. -/
theorem foldl_history_length (now : String) (cmds : List String)
    (h : List CommandRecord) (hl : h.length ≤ max_history_size) :
    (cmds.foldl (fun acc c => add_to_command_history now c acc) h).length ≤
      max_history_size := by
  induction cmds generalizing h with
  | nil => exact hl
  | cons c cs ih =>
    exact ih (add_to_command_history now c h) (add_history_length now c h hl)

/-- A timeout cycle preserves the running-with-zero-counter configuration:
`check_and_restart_listening` increments the counter but the
`start_listening` it calls resets it to 0 and restarts the thread. -/
theorem timeout_step_inv (st : CoordState) (h1 : st.threadRunning = true)
    (h2 : st.timeoutCount = 0) :
    (timeout_step st).threadRunning = true ∧
      (timeout_step st).timeoutCount = 0 := by
  obtain ⟨tr, sr, tc, le, sp⟩ := st
  simp only at h1 h2
  subst h1; subst h2
  revert sr le sp
  decide

/-- The random fallback draw always lands in the fallback list. -/
theorem get_fallback_mem (env : AIEnv) :
    get_fallback_response env ∈ fallback_responses := by
  unfold get_fallback_response
  have h : env.randIdx % 4 = 0 ∨ env.randIdx % 4 = 1 ∨ env.randIdx % 4 = 2 ∨
      env.randIdx % 4 = 3 := by omega
  rcases h with h | h | h | h <;> rw [h] <;> decide

end Lemmas

/-- Claim C1.  What the code actually does on the auto-restart path: starting
from an explicit `start_listening`, after every number of complete
timeout-and-check cycles the capture thread is running again and
`timeout_count` is 0 — in particular after the 4th cycle the coordinator is
still Listening, not Idle, because `check_and_restart_listening` calls
`start_listening`, which resets `timeout_count` to 0 on every restart; the
`max_timeouts` halt branch is unreachable from this loop and auto-restart
never stops.  Moreover an explicit `start_listening` issued after the 4th
cycle is a no-op (the "Already listening" guard), not an Idle-to-Listening
transition. -/
theorem claim_C1_auto_restart_never_halts :
    (∀ n : Nat,
      (timeout_step^[n] (start_listening initial_state)).threadRunning = true ∧
      (timeout_step^[n] (start_listening initial_state)).timeoutCount = 0) ∧
    start_listening (timeout_step^[4] (start_listening initial_state)) =
      timeout_step^[4] (start_listening initial_state) := by
  constructor
  · intro n
    induction n with
    | zero => exact ⟨rfl, rfl⟩
    | succ n ih =>
      rw [Function.iterate_succ_apply']
      exact timeout_step_inv _ ih.1 ih.2
  · decide

/-- Claim C2 (counterexample).  A concrete event sequence in which a capture
session is started while speech output is still in progress and before any
`speech_finished` signal: listening is enabled, TTS starts (stopping the
in-flight session), the capture thread ends, and then the pending 7-second
auto-restart check fires and starts a new capture session — final state has
`speaking = true` and `threadRunning = true`. -/
theorem claim_C2_counterexample :
    (thread_ends (speech_started_ev (enable_listening initial_state))).threadRunning
        = false ∧
    (check_and_restart_listening (thread_ends (speech_started_ev
        (enable_listening initial_state)))).speaking = true ∧
    (check_and_restart_listening (thread_ends (speech_started_ev
        (enable_listening initial_state)))).threadRunning = true := by
  decide

/-- Claim C2 (amended).  While speech output is in progress, the coordinator
does not block new capture sessions: from any suspended state with no running
thread, both a direct `start_listening` call and (below `max_timeouts`) the
auto-restart check start a capture session, with speech output still in
progress. -/
theorem claim_C2_amended (st : CoordState) (hsp : st.speaking = true)
    (hnr : st.threadRunning = false) (hct : st.timeoutCount < max_timeouts) :
    (start_listening st).threadRunning = true ∧
    (start_listening st).speaking = true ∧
    (check_and_restart_listening st).threadRunning = true ∧
    (check_and_restart_listening st).speaking = true := by
  obtain ⟨tr, sr, tc, le, sp⟩ := st
  simp only at hsp hnr hct
  subst hsp; subst hnr
  simp [start_listening, check_and_restart_listening, hct]

/-- Claim C2 (witness for the amended statement at a concrete state). -/
theorem claim_C2_witness :
    (start_listening ⟨false, true, 0, true, true⟩).threadRunning = true ∧
    (start_listening ⟨false, true, 0, true, true⟩).speaking = true ∧
    (check_and_restart_listening ⟨false, true, 0, true, true⟩).threadRunning = true ∧
    (check_and_restart_listening ⟨false, true, 0, true, true⟩).speaking = true :=
  claim_C2_amended ⟨false, true, 0, true, true⟩ rfl rfl (by decide)

/-- Claim C8.  On the `speech_finished` signal the coordinator resumes
listening exactly when `is_listening_enabled` holds (for a suspended state
whose capture thread has stopped, the thread runs afterwards iff the flag is
set), and that flag is a separate boolean: every coordinator transition
leaves it unchanged except the explicit `enable_listening` /
`disable_listening` calls, which set it to true resp. false. -/
theorem claim_C8_resume_iff_enabled (st : CoordState)
    (h : st.threadRunning = false) :
    ((speech_finished_ev st).threadRunning = true ↔ st.isListeningEnabled = true) ∧
    (speech_finished_ev st).isListeningEnabled = st.isListeningEnabled ∧
    (start_listening st).isListeningEnabled = st.isListeningEnabled ∧
    (stop_listening st).isListeningEnabled = st.isListeningEnabled ∧
    (thread_ends st).isListeningEnabled = st.isListeningEnabled ∧
    (check_and_restart_listening st).isListeningEnabled = st.isListeningEnabled ∧
    (speech_started_ev st).isListeningEnabled = st.isListeningEnabled ∧
    (enable_listening st).isListeningEnabled = true ∧
    (disable_listening st).isListeningEnabled = false := by
  obtain ⟨tr, sr, tc, le, sp⟩ := st
  simp only at h
  subst h
  constructor
  · cases le <;>
      simp [speech_finished_ev, start_listening]
  · refine ⟨?_, ?_, ?_, ?_, ?_, ?_, ?_, ?_⟩ <;>
      simp [speech_finished_ev, start_listening, stop_listening, thread_ends,
        check_and_restart_listening, speech_started_ev, enable_listening,
        disable_listening] <;>
      split_ifs <;> rfl

/-- Claim C8 (witness at a concrete suspended, enabled state). -/
theorem claim_C8_witness :
    ((speech_finished_ev ⟨false, false, 0, true, false⟩).threadRunning = true ↔
      (⟨false, false, 0, true, false⟩ : CoordState).isListeningEnabled = true) ∧
    (speech_finished_ev ⟨false, false, 0, true, false⟩).isListeningEnabled =
      (⟨false, false, 0, true, false⟩ : CoordState).isListeningEnabled ∧
    (start_listening ⟨false, false, 0, true, false⟩).isListeningEnabled =
      (⟨false, false, 0, true, false⟩ : CoordState).isListeningEnabled ∧
    (stop_listening ⟨false, false, 0, true, false⟩).isListeningEnabled =
      (⟨false, false, 0, true, false⟩ : CoordState).isListeningEnabled ∧
    (thread_ends ⟨false, false, 0, true, false⟩).isListeningEnabled =
      (⟨false, false, 0, true, false⟩ : CoordState).isListeningEnabled ∧
    (check_and_restart_listening ⟨false, false, 0, true, false⟩).isListeningEnabled =
      (⟨false, false, 0, true, false⟩ : CoordState).isListeningEnabled ∧
    (speech_started_ev ⟨false, false, 0, true, false⟩).isListeningEnabled =
      (⟨false, false, 0, true, false⟩ : CoordState).isListeningEnabled ∧
    (enable_listening ⟨false, false, 0, true, false⟩).isListeningEnabled = true ∧
    (disable_listening ⟨false, false, 0, true, false⟩).isListeningEnabled = false :=
  claim_C8_resume_iff_enabled ⟨false, false, 0, true, false⟩ rfl

/-- Claim C3 (counterexample).  Processing `"exit"` DOES invoke the intent
classifier: `add_to_command_history` runs before the system-command check and
calls `get_command_intent` on the text, storing the classified tag `general`
in the appended record — so "no intent classification occurs for that input"
is false. -/
theorem claim_C3_counterexample :
    (process_command sample_env "exit" empty_router).classifierCalls = [ "exit" ] ∧
    (process_command sample_env "exit" empty_router).classifierCalls ≠ [] ∧
    (process_command sample_env "exit" empty_router).state.history.map
      (fun r => r.intent) = [ IntentTag.general ] := by
  decide

/-- Claim C3 (amended).  For input `"exit"`, from any state: the command is
first recorded to the history (classifying it once for the record), then the
system-command fast path matches and fully handles it — the confirmation
"Shutting down. Goodbye!" is emitted, process termination is scheduled after
a 2000 ms delay, no collaborator dispatch and no routing-intent computation
or frequency update occur. -/
theorem claim_C3_amended (env : Env) (st : RouterState) :
    (process_command env "exit" st).systemHandled = true ∧
    (process_command env "exit" st).responses = [ "Shutting down. Goodbye!" ] ∧
    (process_command env "exit" st).quitDelayMs = some 2000 ∧
    (process_command env "exit" st).dispatch = none ∧
    (process_command env "exit" st).routedIntent = none ∧
    (process_command env "exit" st).state.recentIntents = st.recentIntents ∧
    (process_command env "exit" st).state.history =
      add_to_command_history env.now "exit" st.history ∧
    (process_command env "exit" st).classifierCalls = [ "exit" ] :=
  ⟨rfl, rfl, rfl, rfl, rfl, rfl, rfl, rfl⟩

/-- Claim C4 (counterexample).  Processing `"exit"` appends a record to the
command history but performs no intent-frequency increment — the frequency
table is not bumped on every record call. -/
theorem claim_C4_counterexample :
    (process_command sample_env "exit" empty_router).state.history.length = 1 ∧
    (process_command sample_env "exit" empty_router).state.recentIntents = [] := by
  decide

/-- Claim C4 (amended).  Intent-frequency counts never decrease under
`process_command`; for every non-empty input that the system-command fast
path does not handle, exactly the classified tag's count is incremented by
one; and system-command inputs append a history record while leaving the
frequency table untouched. -/
theorem claim_C4_amended (env : Env) (text : String) (st : RouterState)
    (t : IntentTag) :
    countOf st.recentIntents t ≤
      countOf (process_command env text st).state.recentIntents t ∧
    (text ≠ "" → (process_command env text st).systemHandled = false →
      countOf (process_command env text st).state.recentIntents t =
        countOf st.recentIntents t +
          (if t = get_command_intent text then 1 else 0)) ∧
    ((process_command env text st).systemHandled = true →
      (process_command env text st).state.recentIntents = st.recentIntents ∧
      (process_command env text st).state.history =
        add_to_command_history env.now text st.history) := by
  by_cases ht : text = ""
  · subst ht
    refine ⟨le_refl _, fun hne _ => absurd rfl hne, fun hsys => ?_⟩
    simp [process_command] at hsys
  · simp only [process_command]
    rw [if_neg ht]
    cases hps : process_system_command env text
        { history := add_to_command_history env.now text st.history,
          recentIntents := st.recentIntents } with
    | some eff =>
      refine ⟨le_refl _, fun _ hsys => ?_, fun _ => ⟨rfl, rfl⟩⟩
      simp at hsys
    | none =>
      cases hI : get_command_intent text <;>
        refine ⟨?_, fun _ _ => ?_, fun hsys => by simp at hsys⟩ <;>
        simp [countOf_update]

/-- Claim C4 (witness for the amended statement: a non-system weather command
bumps the weather count by one). -/
theorem claim_C4_witness :
    countOf (process_command sample_env "what is the weather"
        empty_router).state.recentIntents IntentTag.weather =
      countOf empty_router.recentIntents IntentTag.weather +
        (if IntentTag.weather = get_command_intent "what is the weather"
          then 1 else 0) :=
  (claim_C4_amended sample_env "what is the weather" empty_router
    IntentTag.weather).2.1 (by decide) (by decide)

/-- Claim C5.  The command history is a bounded FIFO: from any state within
the capacity of 20, any sequence of record calls keeps the length within 20;
and 25 record calls on an empty history (commands named "1".."25") leave
exactly 20 records, the oldest 5 evicted and insertion order preserved — the
remaining commands are "6".."25". -/
theorem claim_C5_bounded_fifo :
    (∀ (now : String) (cmds : List String) (h : List CommandRecord),
      h.length ≤ max_history_size →
      (cmds.foldl (fun acc c => add_to_command_history now c acc) h).length ≤
        max_history_size) ∧
    ((((List.range 25).map (fun i => toString (i + 1))).foldl
        (fun acc c => add_to_command_history "2024-01-01 10:00:00" c acc)
        []).length = 20 ∧
     ((((List.range 25).map (fun i => toString (i + 1))).foldl
        (fun acc c => add_to_command_history "2024-01-01 10:00:00" c acc)
        []).map (fun r => r.command)) =
      (((List.range 25).map (fun i => toString (i + 1))).drop 5)) :=
  ⟨fun now cmds h hl => foldl_history_length now cmds h hl,
   by decide, by decide⟩

/-- Claim C5 (witness for the bounded-length statement at a concrete input). -/
theorem claim_C5_witness :
    (([ "alpha", "beta" ] : List String).foldl
      (fun acc c => add_to_command_history "t" c acc) []).length ≤
      max_history_size :=
  claim_C5_bounded_fifo.1 "t" [ "alpha", "beta" ] [] (by decide)

/-- Claim C6.  `get_command_intent` is a total function implementing
case-insensitive keyword matching in the fixed priority order
weather, news, reminder, time, help, general with first match winning: a
weather keyword always yields `weather` (in particular for inputs without
news or reminder keywords); each later set applies only when all earlier
sets miss; and an input matching no keyword set yields `general`. -/
theorem claim_C6_classifier_priority (s : String) :
    (kw_hit (lowerStr s) weather_words = true →
      get_command_intent s = .weather) ∧
    (kw_hit (lowerStr s) weather_words = false →
      kw_hit (lowerStr s) news_words = true →
      get_command_intent s = .news) ∧
    (kw_hit (lowerStr s) weather_words = false →
      kw_hit (lowerStr s) news_words = false →
      kw_hit (lowerStr s) reminder_words = true →
      get_command_intent s = .reminder) ∧
    (kw_hit (lowerStr s) weather_words = false →
      kw_hit (lowerStr s) news_words = false →
      kw_hit (lowerStr s) reminder_words = false →
      kw_hit (lowerStr s) time_words = true →
      get_command_intent s = .time) ∧
    (kw_hit (lowerStr s) weather_words = false →
      kw_hit (lowerStr s) news_words = false →
      kw_hit (lowerStr s) reminder_words = false →
      kw_hit (lowerStr s) time_words = false →
      kw_hit (lowerStr s) help_words = true →
      get_command_intent s = .help) ∧
    (kw_hit (lowerStr s) weather_words = false →
      kw_hit (lowerStr s) news_words = false →
      kw_hit (lowerStr s) reminder_words = false →
      kw_hit (lowerStr s) time_words = false →
      kw_hit (lowerStr s) help_words = false →
      get_command_intent s = .general) := by
  refine ⟨?_, ?_, ?_, ?_, ?_, ?_⟩ <;>
    intros <;>
    simp [get_command_intent, *]

/-- Claim C6 (witness: a capitalized weather input classifies as weather, a
keyword-free input classifies as general). -/
theorem claim_C6_witness :
    get_command_intent "Weather today" = .weather ∧
    get_command_intent "zzz" = .general :=
  ⟨(claim_C6_classifier_priority "Weather today").1 (by decide),
   (claim_C6_classifier_priority "zzz").2.2.2.2.2 (by decide) (by decide)
     (by decide) (by decide) (by decide)⟩

/-- Claim C7.  Empty input is answered immediately with the fixed apology,
with no history record, no frequency update, no dispatch and no scheduled
quit — the state is returned unchanged. -/
theorem claim_C7_empty_input (env : Env) (st : RouterState) :
    (process_command env "" st).responses =
      [ "I didn't catch that. Could you please speak again?" ] ∧
    (process_command env "" st).state = st ∧
    (process_command env "" st).state.history = st.history ∧
    (process_command env "" st).dispatch = none ∧
    (process_command env "" st).quitDelayMs = none ∧
    (process_command env "" st).classifierCalls = [] :=
  ⟨rfl, rfl, rfl, rfl, rfl, rfl⟩

/-- Claim C9.  What the code does on a weather command under the default
configuration: the input "What's the weather in Paris" routes to the weather
intent and the weather collaborator is dispatched with the location
`config.get("default_location", "Lucknow")` — which is `None` (the call
passes "Lucknow" as the KEY of a nonexistent section, not as the default,
and the text is never parsed for "Paris") — and on a `success = false`
collaborator result the emitted output is exactly the fixed apology. -/
theorem claim_C9_weather_location_and_fallback :
    (process_command sample_env "What's the weather in Paris"
        empty_router).dispatch =
      some (Dispatch.weather
        (config_get default_config_data "default_location" "Lucknow" none)) ∧
    config_get default_config_data "default_location" "Lucknow" none = none ∧
    (process_command sample_env "What's the weather in Paris"
        empty_router).routedIntent = some IntentTag.weather ∧
    handle_weather_response
        { success := false, location := none, temperature := "20",
          description := "clear sky" } =
      "Sorry, I couldn't get the weather information. Please try again later." := by
  decide

/-- Claim C10.  `process_query` delivers `success = true` exactly when no
exception is raised inside its `try` body — including when the AI service is
unavailable (no key or package), in which case the response is the randomly
drawn member of the fallback list — and the router's fixed apology for the
general-query collaborator appears exactly when such an exception occurred. -/
theorem claim_C10_ai_success_unless_exception (env : AIEnv) (q : String) :
    ((process_query env q).success = true ↔ env.excInTry = none) ∧
    (env.excInTry = none →
      env.openaiAvailable = false ∨ opt_truthy env.apiKey = false →
      (process_query env q).response ∈ fallback_responses) ∧
    (env.excInTry = none →
      handle_ai_response (process_query env q) = (process_query env q).response) ∧
    (∀ e : String, env.excInTry = some e →
      handle_ai_response (process_query env q) =
        "Sorry, I couldn't process your request. Please try again.") := by
  cases hexc : env.excInTry with
  | none =>
    refine ⟨by simp [process_query, hexc], fun _ hud => ?_,
      fun _ => by simp [process_query, hexc, handle_ai_response],
      fun e he => by cases he⟩
    simp only [process_query, hexc]
    cases hk : opt_truthy env.apiKey with
    | false => simpa using get_fallback_mem env
    | true =>
      rcases hud with hav | hkf
      · simp only [if_pos rfl, generate_response, hav, hk]
        simpa using get_fallback_mem env
      · rw [hk] at hkf; cases hkf
  | some e =>
    refine ⟨by simp [process_query, hexc], fun hn => ?_, fun hn => ?_,
      fun e' _ => by simp [process_query, hexc, handle_ai_response]⟩ <;>
      cases hn

/-- Claim C10 (witness: service unavailable, no exception — the delivered
result is successful and its response is drawn from the fallback list). -/
theorem claim_C10_witness :
    (process_query sample_ai_env "hello").success = true ∧
    (process_query sample_ai_env "hello").response ∈ fallback_responses :=
  ⟨(claim_C10_ai_success_unless_exception sample_ai_env "hello").1.mpr rfl,
   (claim_C10_ai_success_unless_exception sample_ai_env "hello").2.1 rfl
     (Or.inl rfl)⟩

end Assistant
